import Mathlib

/-!
Verification development for the Entra ID bearer-token verifier
(`src/backend/src/entra_id.rs`, with the sibling variant
`src/entra-id-backend/src/entra_id.rs` modelled where the two differ).

Shallow embedding conventions:
* `Instant` and `Duration` become `Nat` (milliseconds are irrelevant; only
  order and subtraction matter).  `Instant::duration_since` saturates, which
  matches `Nat` subtraction.
* `HashMap` becomes an association list (`List (k × v)`); `entry/and_modify/
  or_insert` and `get_mut` are modelled with explicit helpers below.
* External library calls (`jsonwebtoken::decode_header`, base64, serde) are
  abstracted: a token carries the results those calls would produce, and the
  repository's own control flow over them is translated literally.
* The `url` crate is modelled by a small parser (`urlParse`) that reproduces
  the behaviour `extract_issuer_from_iss` relies on: the serialized path of a
  hierarchical URL starts with a slash, `path_segments` strips that slash and
  splits on the remaining slashes, and a cannot-be-a-base URL (scheme with no
  authority) has no leading-slash path.
* Network I/O is made observable: every call to `fetch_jwks` from the cache
  machinery increments a `fetchCount` in the explicit state, and the fetched
  document is an oracle argument.
-/

deriving instance DecidableEq for Except

namespace EntraId

/-- Tenant identifier, compared by value (source: `struct TenantId(pub String)`). -/
structure TenantId where
  val : String
deriving DecidableEq, Repr

/-- JWK key id (source: `struct Kid(String)`). -/
structure Kid where
  val : String
deriving DecidableEq, Repr

/-- JSON Web Key as received (source: `struct Jwk`). -/
structure Jwk where
  kid : String
  kty : String
  n : String
  e : String
  alg : Option String
  use_ : Option String
deriving DecidableEq, Repr

/-- A cached key together with the time the upstream last advertised it
(source: `struct CachedJwk`). -/
structure CachedJwk where
  jwk : Jwk
  last_seen_at : Nat
deriving DecidableEq, Repr

/-- Registered tenant (source: `struct Tenant`).  `uri` is kept as the raw
string of the JWKS endpoint. -/
structure Tenant where
  id : TenantId
  uri : String
  issuer : String
  audience : String
deriving DecidableEq, Repr

/-- The variants of `jsonwebtoken::Algorithm` that `decode_header` can
produce; a header whose `alg` is not one of these fails to decode. -/
inductive Alg where
  | HS256 | HS384 | HS512
  | RS256 | RS384 | RS512
  | ES256 | ES384
  | PS256 | PS384 | PS512
  | EdDSA
deriving DecidableEq, Repr

/-- Issuer classification (source: `enum IssuerTenant`). -/
inductive IssuerTenant where
  | Tenant (tenant_id : TenantId)
  | Organizations
  | Common
deriving DecidableEq, Repr

/-- The error enum (source: `enum EntraIdError`), with library payloads
reduced to the data the claims talk about. -/
inductive EntraIdError where
  | Initialize (msg : String)
  | JwksProviderInitError (msg : String)
  | JwksFetchError (uri : String)
  | JwksResponseParseError (uri : String)
  | DecodingKeyNotFound (msg : String)
  | TenantNotFound (tenant_id : TenantId)
  | TokenHeaderDecodeError
  | TokenHeaderMissingKid (msg : String)
  | DisallowedIssuerTenant (issuer : IssuerTenant)
  | UnsupportedTokenAlgorithm (alg : Alg)
  | VerifyTokenError
  | CreateDecodingKeyError (kid : Kid)
  | InvalidTokenFormat (msg : String)
  | TokenPayloadDecodeError
  | TokenPayloadParseError
  | TokenMissingIssuer
  | InvalidIssuerFormat (msg : String)
deriving DecidableEq, Repr

/- ## Association-list model of `HashMap` -/

/-- `HashMap::get`. -/
def alookup {α β : Type} [DecidableEq α] : List (α × β) → α → Option β
  | [], _ => none
  | (k, v) :: rest, key => if k = key then some v else alookup rest key

/-- Replace the value at a key, or append the binding when absent
(`HashMap::insert`, also the result of mutating through `get_mut`). -/
def aset {α β : Type} [DecidableEq α] : List (α × β) → α → β → List (α × β)
  | [], key, val => [(key, val)]
  | (k, v) :: rest, key, val =>
    if k = key then (k, val) :: rest else (k, v) :: aset rest key val

/-- `HashMap::entry(key).and_modify(f).or_insert(dflt)`. -/
def aentry {α β : Type} [DecidableEq α] (m : List (α × β)) (key : α)
    (f : β → β) (dflt : β) : List (α × β) :=
  match alookup m key with
  | some v => aset m key (f v)
  | none => m ++ [(key, dflt)]

theorem alookup_aset {α β : Type} [DecidableEq α]
    (m : List (α × β)) (k : α) (v : β) (k' : α) :
    alookup (aset m k v) k' = if k = k' then some v else alookup m k' := by
  induction m with
  | nil =>
    by_cases h : k = k' <;> simp [aset, alookup, h]
  | cons hd tl ih =>
    obtain ⟨k0, v0⟩ := hd
    by_cases h0 : k0 = k
    · subst h0
      by_cases h : k0 = k' <;> simp [aset, alookup, h]
    · by_cases h : k0 = k'
      · subst h
        simp [aset, alookup, h0, Ne.symm h0]
      · simp [aset, alookup, h0, h, ih]

theorem alookup_append_single {α β : Type} [DecidableEq α]
    (m : List (α × β)) (k : α) (v : β) (k' : α) :
    alookup (m ++ [(k, v)]) k' =
      match alookup m k' with
      | some w => some w
      | none => if k = k' then some v else none := by
  induction m with
  | nil => simp [alookup]
  | cons hd tl ih =>
    obtain ⟨k0, v0⟩ := hd
    by_cases h : k0 = k' <;> simp [alookup, h, ih]

theorem alookup_mapValues {α β : Type} [DecidableEq α]
    (m : List (α × β)) (f : β → β) (k : α) :
    alookup (m.map (fun p => (p.1, f p.2))) k = (alookup m k).map f := by
  induction m with
  | nil => simp [alookup]
  | cons hd tl ih =>
    obtain ⟨k0, v0⟩ := hd
    by_cases h : k0 = k
    · subst h; simp [alookup]
    · simp [alookup, h, ih]

/- ## Model of the parts of the `url` crate used by `extract_issuer_from_iss` -/

/-- Split a character list at the first colon. -/
def splitFirstColon : List Char → Option (List Char × List Char)
  | [] => none
  | c :: rest =>
    if c = ':' then some ([], rest)
    else (splitFirstColon rest).map (fun p => (c :: p.1, p.2))

/-- Split a character list at the first slash; the slash is kept in the
second component. -/
def splitFirstSlash : List Char → Option (List Char × List Char)
  | [] => none
  | c :: rest =>
    if c = '/' then some ([], c :: rest)
    else (splitFirstSlash rest).map (fun p => (c :: p.1, p.2))

/-- `str::split` on one character: always yields at least one (possibly
empty) piece. -/
def splitOnChar (sep : Char) : List Char → List (List Char)
  | [] => [[]]
  | c :: rest =>
    let r := splitOnChar sep rest
    if c = sep then [] :: r
    else
      match r with
      | [] => [[c]]
      | g :: gs => (c :: g) :: gs

theorem splitOnChar_ne_nil (sep : Char) (l : List Char) :
    splitOnChar sep l ≠ [] := by
  induction l with
  | nil => simp [splitOnChar]
  | cons c rest ih =>
    by_cases h : c = sep
    · simp [splitOnChar, h]
    · simp only [splitOnChar, if_neg h]
      cases hr : splitOnChar sep rest <;> simp

/-- URL schemes the `url` crate treats as special (always hierarchical, the
serialized path always starts with a slash). -/
def specialSchemes : List String := ["http", "https", "ws", "wss", "ftp", "file"]

/-- Scheme syntax: one alphabetic character followed by alphanumerics or
one of `+`, `-`, `.`. -/
def validScheme : List Char → Bool
  | [] => false
  | c :: rest =>
    c.isAlpha && rest.all (fun d => d.isAlpha || d.isDigit || d = '+' || d = '-' || d = '.')

/-- Parsed URL, reduced to what `extract_issuer_from_iss` reads: the scheme
and the serialized path (`Url::path`). -/
structure ModelUrl where
  scheme : String
  path : String
deriving DecidableEq, Repr

/-- Model of `Url::parse`.  A string without any colon is a relative URL
(parse error).  A valid scheme followed by `://` gives a hierarchical URL
whose path starts with `/` (for special schemes an absent path serializes as
`/`); a valid scheme followed only by `:` gives a cannot-be-a-base URL whose
path has no leading slash. -/
def urlParse (s : String) : Option ModelUrl :=
  match splitFirstColon s.data with
  | none => none
  | some (schemeCs, rest) =>
    if validScheme schemeCs then
      let scheme := String.mk (schemeCs.map Char.toLower)
      match rest with
      | '/' :: '/' :: hostPath =>
        let special := specialSchemes.contains scheme
        match splitFirstSlash hostPath with
        | some (host, path) =>
          if special && host.isEmpty then none
          else some { scheme := scheme, path := String.mk path }
        | none =>
          if special && hostPath.isEmpty then none
          else some { scheme := scheme, path := if special then "/" else "" }
      | _ => some { scheme := scheme, path := String.mk rest }
    else none

/-- Model of `Url::path_segments`: `None` when the serialized path does not
start with a slash (cannot-be-a-base), otherwise the path after the leading
slash split on `/`. -/
def ModelUrl.path_segments (u : ModelUrl) : Option (List String) :=
  match u.path.data with
  | '/' :: rest => some ((splitOnChar '/' rest).map (fun cs => String.mk cs))
  | _ => none

theorem path_segments_ne_nil (u : ModelUrl) (segs : List String)
    (h : u.path_segments = some segs) : segs ≠ [] := by
  unfold ModelUrl.path_segments at h
  cases hp : u.path.data with
  | nil => rw [hp] at h; exact absurd h (by simp)
  | cons c rest =>
    rw [hp] at h
    by_cases hc : c = '/'
    · subst hc
      simp only [Option.some.injEq] at h
      subst h
      simp [splitOnChar_ne_nil]
    · exact absurd h (by simp [hc])

/- ## Issuer extraction (source: `extract_issuer_from_iss`, `specify_issuer`) -/

/-- Source: `extract_issuer_from_iss` at `src/backend/src/entra_id.rs:1145`
(identical in `src/entra-id-backend/src/entra_id.rs:1113`). -/
def extract_issuer_from_iss (iss : String) : Except EntraIdError TenantId :=
  match urlParse iss with
  | none => .error .TokenMissingIssuer
  | some uri =>
    match uri.path_segments with
    | none => .error (.InvalidIssuerFormat "No path segments in iss")
    | some segments =>
      match segments with
      | [] => .error (.InvalidIssuerFormat "Empty path in iss")
      | first :: _ =>
        if first = "common" then .error (.DisallowedIssuerTenant .Common)
        else if first = "organizations" then
          .error (.DisallowedIssuerTenant .Organizations)
        else .ok ⟨first⟩

/-- Pre-verification payload subset (source: `struct UnverifiedClaims`). -/
structure UnverifiedClaims where
  iss : String
  tid : Option String
deriving DecidableEq, Repr

/-- Source: `specify_issuer` at `src/backend/src/entra_id.rs:1134`. -/
def specify_issuer (unverified_claims : UnverifiedClaims) :
    Except EntraIdError IssuerTenant :=
  match unverified_claims.tid with
  | some tid => .ok (.Tenant ⟨tid⟩)
  | none => (extract_issuer_from_iss unverified_claims.iss).map .Tenant

/- ## Token model

A bearer token is represented by the results the external library calls
(`jsonwebtoken::decode_header`, the base64 decode of the payload segment and
its serde parse) would produce on it.  The repository code never inspects
the raw bytes in any other way before signature verification. -/

/-- The fields of `jsonwebtoken::Header` the code reads. -/
structure JwtHeader where
  alg : Alg
  kid : Option String
deriving DecidableEq, Repr

/-- Abstract token: `headerResult` is the result of `decode_header`,
`numParts` the number of dot-separated segments, `payloadB64Result` the
base64url decode of segment 1 and `payloadParseResult` the serde parse of
the decoded bytes. -/
structure RawToken where
  headerResult : Except Unit JwtHeader
  numParts : Nat
  payloadB64Result : Except Unit Unit
  payloadParseResult : Except Unit UnverifiedClaims

/-- Source constant `JWT_PARTS_COUNT`. -/
def JWT_PARTS_COUNT : Nat := 3

/-- Source: `extract_payload` at `src/backend/src/entra_id.rs:1100`. -/
def extract_payload (token : RawToken) : Except EntraIdError UnverifiedClaims :=
  if token.numParts ≠ JWT_PARTS_COUNT then
    .error (.InvalidTokenFormat "Invalid JWT format")
  else
    match token.payloadB64Result with
    | .error _ => .error .TokenPayloadDecodeError
    | .ok _ =>
      match token.payloadParseResult with
      | .error _ => .error .TokenPayloadParseError
      | .ok unverified_claims => .ok unverified_claims

/- ## Cache and refresh machinery -/

/-- `Kid → CachedJwk` map of one tenant (source type `CachedJwkMap`). -/
abbrev CachedJwkMap := List (Kid × CachedJwk)

/-- `TenantId → CachedJwkMap` cache table (source type `TenantJwksCache`). -/
abbrev TenantJwksCache := List (TenantId × CachedJwkMap)

/-- Source type `TenantRegistry`. -/
abbrev TenantRegistry := List (TenantId × Tenant)

/-- Per-tenant refresh state (source: `struct JwksCacheRefreshState`); the
`Notify` handle itself is not part of the state, notifications are counted
in `VState.notifyCount`. -/
structure JwksCacheRefreshState where
  last_refreshed_at : Option Nat
  refreshing : Bool
deriving DecidableEq, Repr

/-- Source: `impl Default for JwksCacheRefreshState`. -/
def refreshStateDefault : JwksCacheRefreshState :=
  { last_refreshed_at := none, refreshing := false }

/-- The immutable configuration of `EntraIdTokenVerifier` that the modelled
operations read. -/
structure Verifier where
  registry : TenantRegistry
  ttl : Nat
  refresh_tenant_jwks_interval : Nat
deriving DecidableEq, Repr

/-- The mutable state behind the locks, plus two observability counters:
`fetchCount` counts calls to `fetch_jwks` (network I/O) and `notifyCount`
counts `notify_waiters` calls. -/
structure VState where
  entries : TenantJwksCache
  refresh_states : List (TenantId × JwksCacheRefreshState)
  fetchCount : Nat
  notifyCount : Nat
deriving DecidableEq, Repr

/-- The merge loop inside `refresh_tenant_jwks_cache`
(`src/backend/src/entra_id.rs:634`): for each fetched key, update
`last_seen_at` when the kid is present, insert with `last_seen_at = now`
otherwise. -/
def mergeKeys (cached_jwk_map : CachedJwkMap) (keys : List Jwk) (now : Nat) :
    CachedJwkMap :=
  keys.foldl
    (fun m key =>
      aentry m ⟨key.kid⟩ (fun managed => { managed with last_seen_at := now })
        { jwk := key, last_seen_at := now })
    cached_jwk_map

/-- Source: `refresh_tenant_jwks_cache` at `src/backend/src/entra_id.rs:618`.
`fetchResult` is what `provider.fetch_jwks(&tenant.uri)` returns; the call
itself is recorded in `fetchCount`.  When the tenant has no cache entry the
source logs a warning and leaves the cache untouched. -/
def refresh_tenant_jwks_cache (v : Verifier) (st : VState)
    (fetchResult : Except EntraIdError (List Jwk)) (now : Nat)
    (tenant_id : TenantId) : Except EntraIdError Unit × VState :=
  match alookup v.registry tenant_id with
  | none => (.error (.TenantNotFound tenant_id), st)
  | some _tenant =>
    let st1 : VState := { st with fetchCount := st.fetchCount + 1 }
    match fetchResult with
    | .error e => (.error e, st1)
    | .ok keys =>
      match alookup st1.entries tenant_id with
      | some cached_jwk_map =>
        (.ok (),
         { st1 with
             entries := aset st1.entries tenant_id (mergeKeys cached_jwk_map keys now) })
      | none => (.ok (), st1)

/-- Source: `enum JwksCacheRefreshResult`. -/
inductive JwksCacheRefreshResult where
  | Refreshed
  | RecentlyRefreshed
  | WaitedForRefresh
  | GrantedRefreshPermission
deriving DecidableEq, Repr

/-- The cooldown condition of `maybe_refresh_tenant_jwks_cache`:
`last_refreshed_at` is set and `now − last_refreshed_at <
refresh_tenant_jwks_interval`. -/
def cooldownActive (state : JwksCacheRefreshState) (now interval : Nat) : Bool :=
  match state.last_refreshed_at with
  | some last_refreshed_at => decide (now - last_refreshed_at < interval)
  | none => false

/-- Source: `maybe_refresh_tenant_jwks_cache` at
`src/backend/src/entra_id.rs:675`.  One sequential execution of the method:
`now` is the `Instant::now()` of the cooldown check, `nowMerge` the one
inside the merge, `nowDone` the one taken after a successful refresh.  The
`WaitedForRefresh` branch models the caller that drops the lock and waits on
`notify`: it performs no state change of its own. -/
def maybe_refresh_tenant_jwks_cache (v : Verifier) (st : VState)
    (fetchResult : Except EntraIdError (List Jwk)) (now nowMerge nowDone : Nat)
    (tenant_id : TenantId) :
    Except EntraIdError JwksCacheRefreshResult × VState :=
  -- states.entry(tenant_id.clone()).or_insert(JwksCacheRefreshState::default())
  let states0 :=
    match alookup st.refresh_states tenant_id with
    | some _ => st.refresh_states
    | none => st.refresh_states ++ [(tenant_id, refreshStateDefault)]
  let st1 : VState := { st with refresh_states := states0 }
  let state := (alookup states0 tenant_id).getD refreshStateDefault
  if cooldownActive state now v.refresh_tenant_jwks_interval then
    (.ok .RecentlyRefreshed, st1)
  else if state.refreshing then
    (.ok .WaitedForRefresh, st1)
  else
    -- state.refreshing = true; this caller is the refresher
    let st2 : VState :=
      { st1 with
          refresh_states := aset states0 tenant_id { state with refreshing := true } }
    let step := refresh_tenant_jwks_cache v st2 fetchResult nowMerge tenant_id
    let result := step.1
    let st3 := step.2
    let last_refreshed_at : Option Nat :=
      match result with
      | .ok _ => some nowDone
      | .error _ => none
    -- re-lock: states.get_mut(tenant_id).unwrap(); clear the flag, update
    -- last_refreshed_at only on success, notify all waiters
    let state2 := (alookup st3.refresh_states tenant_id).getD refreshStateDefault
    let state3 := { state2 with refreshing := false }
    let state4 :=
      match last_refreshed_at with
      | some _ => { state3 with last_refreshed_at := last_refreshed_at }
      | none => state3
    let st4 : VState :=
      { st3 with
          refresh_states := aset st3.refresh_states tenant_id state4,
          notifyCount := st3.notifyCount + 1 }
    (result.map (fun _ => JwksCacheRefreshResult.Refreshed), st4)

/-- Source: `find_decoding_key` at `src/backend/src/entra_id.rs:559`.
`rsaValid` abstracts `DecodingKey::from_rsa_components` succeeding; the
returned decoding key is identified with the `Jwk` it was built from. -/
def find_decoding_key (rsaValid : Jwk → Bool) (st : VState)
    (tenant_id : TenantId) (key_id : Kid) : Option Jwk :=
  match alookup st.entries tenant_id with
  | none => none
  | some cached_jwk_map =>
    match alookup cached_jwk_map key_id with
    | none => none
    | some cached_jwk =>
      if rsaValid cached_jwk.jwk then some cached_jwk.jwk else none

/-- Source: `get_decoding_key` at `src/backend/src/entra_id.rs:576`: lookup,
on miss a conditional refresh whose error is ignored, then a second
lookup. -/
def get_decoding_key (v : Verifier) (rsaValid : Jwk → Bool) (st : VState)
    (fetchResult : Except EntraIdError (List Jwk)) (now nowMerge nowDone : Nat)
    (tenant_id : TenantId) (key_id : Kid) : Except EntraIdError Jwk × VState :=
  match find_decoding_key rsaValid st tenant_id key_id with
  | some key => (.ok key, st)
  | none =>
    let st2 :=
      (maybe_refresh_tenant_jwks_cache v st fetchResult now nowMerge nowDone tenant_id).2
    match find_decoding_key rsaValid st2 tenant_id key_id with
    | some key => (.ok key, st2)
    | none => (.error (.DecodingKeyNotFound "DecodingKey not found"), st2)

/-- What `verify_token` is about to do when every pre-verification step
succeeded: validate the signature and claims of the token against this
tenant with this key. -/
inductive VerifyReached where
  | cryptoStage (tenant : Tenant) (kid : Kid) (key : Jwk)
deriving DecidableEq, Repr

/-- The tail of `verify_token` shared by both backends, from the payload
peek on (`src/backend/src/entra_id.rs:834-863`). -/
def verify_token_tail (v : Verifier) (rsaValid : Jwk → Bool) (st : VState)
    (fetchResult : Except EntraIdError (List Jwk)) (now nowMerge nowDone : Nat)
    (token : RawToken) (kid : String) :
    Except EntraIdError VerifyReached × VState :=
  match extract_payload token with
  | .error e => (.error e, st)
  | .ok unverified_claims =>
    match specify_issuer unverified_claims with
    | .error e => (.error e, st)
    | .ok issuer =>
      match issuer with
      | .Tenant tenant_id =>
        match alookup v.registry tenant_id with
        | none => (.error (.TenantNotFound tenant_id), st)
        | some tenant =>
          match get_decoding_key v rsaValid st fetchResult now nowMerge nowDone
              tenant_id ⟨kid⟩ with
          | (.error e, st2) => (.error e, st2)
          | (.ok key, st2) => (.ok (.cryptoStage tenant ⟨kid⟩ key), st2)
      | _ => (.error (.DisallowedIssuerTenant issuer), st)

/-- Source: `verify_token` at `src/backend/src/entra_id.rs:815`.  This
variant checks the algorithm BEFORE the kid.  The `if header.alg !=
Algorithm::RS256` of the source is rendered with the polarity flipped. -/
def verify_token (v : Verifier) (rsaValid : Jwk → Bool) (st : VState)
    (fetchResult : Except EntraIdError (List Jwk)) (now nowMerge nowDone : Nat)
    (token : RawToken) : Except EntraIdError VerifyReached × VState :=
  match token.headerResult with
  | .error _ => (.error .TokenHeaderDecodeError, st)
  | .ok header =>
    if header.alg = Alg.RS256 then
      match header.kid with
      | none => (.error (.TokenHeaderMissingKid "JWT header missing kid"), st)
      | some kid =>
        verify_token_tail v rsaValid st fetchResult now nowMerge nowDone token kid
    else (.error (.UnsupportedTokenAlgorithm header.alg), st)

/-- Source: `verify_token` at `src/entra-id-backend/src/entra_id.rs:732`.
This variant checks the kid BEFORE the algorithm. -/
def verify_token_eib (v : Verifier) (rsaValid : Jwk → Bool) (st : VState)
    (fetchResult : Except EntraIdError (List Jwk)) (now nowMerge nowDone : Nat)
    (token : RawToken) : Except EntraIdError VerifyReached × VState :=
  match token.headerResult with
  | .error _ => (.error .TokenHeaderDecodeError, st)
  | .ok header =>
    match header.kid with
    | none => (.error (.TokenHeaderMissingKid "JWT header missing kid"), st)
    | some kid =>
      if header.alg = Alg.RS256 then
        verify_token_tail v rsaValid st fetchResult now nowMerge nowDone token kid
      else (.error (.UnsupportedTokenAlgorithm header.alg), st)

/- ## Cleanup (source: `cleanup_expired_jwks_cache`,
`src/backend/src/entra_id.rs:740`) -/

/-- `Iterator::max_by_key(|(_, jwk)| jwk.last_seen_at)`: the later of two
equal keys wins, as for Rust iterators. -/
def maxByLastSeen (m : CachedJwkMap) : Option (Kid × CachedJwk) :=
  m.foldl
    (fun acc kv =>
      match acc with
      | none => some kv
      | some best =>
        if best.2.last_seen_at ≤ kv.2.last_seen_at then some kv else some best)
    none

/-- The per-tenant body of `cleanup_expired_jwks_cache`.  In the source,
`original.drain()` removes every element from `original` while the filter
keeps the fresh ones, so when the safety branch later runs
`original.into_iter().max_by_key(..)` the map is already empty: the model
makes that drained map explicit as `originalAfterDrain`. -/
def cleanup_tenant (ttl now : Nat) (jwks : CachedJwkMap) : CachedJwkMap :=
  let original := jwks
  let retained :=
    original.filter (fun kv => decide (now - kv.2.last_seen_at < ttl))
  let originalAfterDrain : CachedJwkMap := []
  if retained.isEmpty then
    match maxByLastSeen originalAfterDrain with
    | some kv => retained ++ [kv]
    | none => retained
  else retained

/-- Source: `cleanup_expired_jwks_cache` — apply `cleanup_tenant` to every
tenant of the cache table, in place. -/
def cleanup_expired_jwks_cache (v : Verifier) (st : VState) (now : Nat) :
    VState :=
  { st with
      entries := st.entries.map (fun tj => (tj.1, cleanup_tenant v.ttl now tj.2)) }

/- ## Construction (source: `EntraIdTokenVerifier::new`,
`src/backend/src/entra_id.rs:491`) -/

/-- The initial per-tenant key map built in `new`: each fetched key is
wrapped by `From<Jwk> for CachedJwk` with `last_seen_at = now` and inserted
under its kid. -/
def initJwkMap (keys : List Jwk) (now : Nat) : CachedJwkMap :=
  keys.foldl (fun m key => aset m ⟨key.kid⟩ { jwk := key, last_seen_at := now }) []

/-- The fail-fast loop of `new`: fetch the JWKS of every registered tenant
(`fetchFor` is keyed by the tenant's JWKS uri); the first failure aborts
construction.  Returns the initial cache table and refresh states. -/
def initCaches (fetchFor : String → Except EntraIdError (List Jwk)) (now : Nat) :
    TenantRegistry →
    Except EntraIdError (TenantJwksCache × List (TenantId × JwksCacheRefreshState))
  | [] => .ok ([], [])
  | (tenant_id, tenant) :: rest =>
    match fetchFor tenant.uri with
    | .error e => .error e
    | .ok keys =>
      match initCaches fetchFor now rest with
      | .error e => .error e
      | .ok (entries, states) =>
        .ok ((tenant_id, initJwkMap keys now) :: entries,
             (tenant_id, refreshStateDefault) :: states)

/-- The registry construction of `new`: fold the tenant list into a map,
later entries overriding earlier ones. -/
def buildRegistry (tenants : List Tenant) : TenantRegistry :=
  tenants.foldl (fun reg tenant => aset reg tenant.id tenant) []

/-- Source: `EntraIdTokenVerifier::new`, restricted to the state the claims
are about (provider construction and the background task are outside the
model).  One fetch per registered tenant is performed. -/
def newVerifier (tenants : List Tenant) (ttl interval : Nat)
    (fetchFor : String → Except EntraIdError (List Jwk)) (now : Nat) :
    Except EntraIdError (Verifier × VState) :=
  let registry := buildRegistry tenants
  match initCaches fetchFor now registry with
  | .error e => .error e
  | .ok (entries, refresh_states) =>
    .ok ({ registry := registry, ttl := ttl,
           refresh_tenant_jwks_interval := interval },
         { entries := entries, refresh_states := refresh_states,
           fetchCount := registry.length, notifyCount := 0 })

/- ## JWKS provider retry loop (source: `is_retryable_error` and
`JwksProvider::fetch_jwks`, `src/backend/src/entra_id.rs:314-402`) -/

/-- The observable part of a `reqwest::Error`. -/
structure ReqwestError where
  is_timeout : Bool
  is_connect : Bool
  status : Option Nat
deriving DecidableEq, Repr

/-- Source: `is_retryable_error` at `src/backend/src/entra_id.rs:314`.
`status.is_server_error()` is 500..=599; `TOO_MANY_REQUESTS` is 429. -/
def is_retryable_error (e : ReqwestError) : Bool :=
  if e.is_timeout then true
  else if e.is_connect then true
  else
    match e.status with
    | some status =>
      if 500 ≤ status ∧ status ≤ 599 then true
      else if status = 429 then true
      else false
    | none => false

/-- What one HTTP attempt of the provider produces: either `send()` itself
fails (a transport error: timeout, connect failure, …) or a response with a
status code arrives, whose body parse (when the status is not an error) is
`body`. -/
inductive HttpAttempt where
  | transportError (is_timeout is_connect : Bool)
  | response (status : Nat) (body : Except Unit (List Jwk))
deriving Repr

/-- Outcome of `fetch_jwks`, with the number of attempts that were made.
`outOfScript` is a model artifact: the attempt script was exhausted while
the loop wanted to retry. -/
inductive FetchOutcome where
  | fetchError (e : ReqwestError) (attemptsMade : Nat)
  | parseError (attemptsMade : Nat)
  | success (keys : List Jwk) (attemptsMade : Nat)
  | outOfScript (attemptsMade : Nat)
deriving DecidableEq, Repr

/-- The `reqwest::Error` produced by `Response::error_for_status` for an
error status: a status error is neither a timeout nor a connect error. -/
def statusError (status : Nat) : ReqwestError :=
  { is_timeout := false, is_connect := false, status := some status }

/-- The `reqwest::Error` produced by a failed `send()`: a transport error
carries no status code. -/
def transportErrorOf (is_timeout is_connect : Bool) : ReqwestError :=
  { is_timeout := is_timeout, is_connect := is_connect, status := none }

/-- The loop body of `fetch_jwks`.  `attempts` starts at 0 and is
incremented at the top of each iteration.  Crucial detail of the source: the
`?` on `send().await.map_err(..)` RETURNS a `JwksFetchError` immediately on
any transport error — `is_retryable_error` is only consulted for the status
errors produced by `error_for_status`. -/
def fetch_jwks_loop (max_attempts attempts : Nat) :
    List HttpAttempt → FetchOutcome
  | [] => .outOfScript attempts
  | att :: rest =>
    let attempts := attempts + 1
    match att with
    | .transportError is_timeout is_connect =>
      .fetchError (transportErrorOf is_timeout is_connect) attempts
    | .response status body =>
      if 400 ≤ status ∧ status ≤ 599 then
        -- error_for_status gave Err(e)
        let e := statusError status
        if ¬ is_retryable_error e ∨ max_attempts ≤ attempts then
          .fetchError e attempts
        else
          fetch_jwks_loop max_attempts attempts rest
      else
        match body with
        | .error _ => .parseError attempts
        | .ok keys => .success keys attempts

/-- Source: `fetch_jwks` at `src/backend/src/entra_id.rs:362`, run against a
script of attempt outcomes (backoff sleeps do not affect the result). -/
def fetch_jwks (max_attempts : Nat) (script : List HttpAttempt) : FetchOutcome :=
  fetch_jwks_loop max_attempts 0 script

/- ## Lemmas about the map helpers -/

theorem alookup_aentry {α β : Type} [DecidableEq α]
    (m : List (α × β)) (k : α) (f : β → β) (d : β) (k' : α) :
    alookup (aentry m k f d) k' =
      if k = k' then
        match alookup m k with
        | some v => some (f v)
        | none => some d
      else alookup m k' := by
  unfold aentry
  cases h : alookup m k with
  | some v =>
    rw [alookup_aset]
  | none =>
    rw [alookup_append_single]
    by_cases hk : k = k'
    · subst hk
      simp only [if_pos rfl, h]
    · simp only [if_neg hk]
      cases h2 : alookup m k' <;> simp

/-- The kids advertised by a fetched key list. -/
def kidsOf (keys : List Jwk) : List Kid := keys.map (fun key => ⟨key.kid⟩)

theorem mergeKeys_cons (m : CachedJwkMap) (key : Jwk) (rest : List Jwk) (now : Nat) :
    mergeKeys m (key :: rest) now =
      mergeKeys
        (aentry m ⟨key.kid⟩ (fun managed => { managed with last_seen_at := now })
          { jwk := key, last_seen_at := now })
        rest now := rfl

theorem mergeKeys_lookup_not_mem (keys : List Jwk) (now : Nat) :
    ∀ (m : CachedJwkMap) (kid : Kid), kid ∉ kidsOf keys →
      alookup (mergeKeys m keys now) kid = alookup m kid := by
  induction keys with
  | nil => intro m kid _; rfl
  | cons key rest ih =>
    intro m kid hmem
    have hk : (⟨key.kid⟩ : Kid) ≠ kid := by
      intro h; exact hmem (by simp [kidsOf, ← h])
    have hrest : kid ∉ kidsOf rest := by
      intro h; exact hmem (by simp [kidsOf] at h ⊢; right; exact h)
    rw [mergeKeys_cons, ih _ _ hrest, alookup_aentry, if_neg hk]

theorem mergeKeys_lookup_mem (keys : List Jwk) (now : Nat) :
    ∀ (m : CachedJwkMap) (kid : Kid) (v : CachedJwk), alookup m kid = some v →
      kid ∈ kidsOf keys →
      alookup (mergeKeys m keys now) kid = some { v with last_seen_at := now } := by
  induction keys with
  | nil => intro m kid v _ hmem; exact absurd hmem (by simp [kidsOf])
  | cons key rest ih =>
    intro m kid v hv hmem
    rw [mergeKeys_cons]
    by_cases hk : (⟨key.kid⟩ : Kid) = kid
    · have h1 : alookup
          (aentry m ⟨key.kid⟩ (fun managed => { managed with last_seen_at := now })
            { jwk := key, last_seen_at := now }) kid =
          some { v with last_seen_at := now } := by
        rw [alookup_aentry, if_pos hk, hk, hv]
      by_cases hrest : kid ∈ kidsOf rest
      · rw [ih _ _ _ h1 hrest]
      · rw [mergeKeys_lookup_not_mem rest now _ _ hrest, h1]
    · have h1 : alookup
          (aentry m ⟨key.kid⟩ (fun managed => { managed with last_seen_at := now })
            { jwk := key, last_seen_at := now }) kid = some v := by
        rw [alookup_aentry, if_neg hk, hv]
      have hrest : kid ∈ kidsOf rest := by
        simp [kidsOf] at hmem
        rcases hmem with h | h
        · exact absurd (by simp [h] : (⟨key.kid⟩ : Kid) = kid) hk
        · simpa [kidsOf] using h
      exact ih _ _ _ h1 hrest

theorem mergeKeys_inserts (keys : List Jwk) (now : Nat) :
    ∀ (m : CachedJwkMap) (kid : Kid), alookup m kid = none → kid ∈ kidsOf keys →
      ∃ v1, alookup (mergeKeys m keys now) kid = some v1 ∧ v1.last_seen_at = now := by
  induction keys with
  | nil => intro m kid _ hmem; exact absurd hmem (by simp [kidsOf])
  | cons key rest ih =>
    intro m kid hnone hmem
    rw [mergeKeys_cons]
    by_cases hk : (⟨key.kid⟩ : Kid) = kid
    · have h1 : alookup
          (aentry m ⟨key.kid⟩ (fun managed => { managed with last_seen_at := now })
            { jwk := key, last_seen_at := now }) kid =
          some { jwk := key, last_seen_at := now } := by
        rw [alookup_aentry, if_pos hk, hk, hnone]
      by_cases hrest : kid ∈ kidsOf rest
      · exact ⟨_, mergeKeys_lookup_mem rest now _ _ _ h1 hrest, rfl⟩
      · exact ⟨_, (mergeKeys_lookup_not_mem rest now _ _ hrest).trans h1, rfl⟩
    · have h1 : alookup
          (aentry m ⟨key.kid⟩ (fun managed => { managed with last_seen_at := now })
            { jwk := key, last_seen_at := now }) kid = alookup m kid := by
        rw [alookup_aentry, if_neg hk]
      have hrest : kid ∈ kidsOf rest := by
        simp [kidsOf] at hmem
        rcases hmem with h | h
        · exact absurd (by simp [h] : (⟨key.kid⟩ : Kid) = kid) hk
        · simpa [kidsOf] using h
      exact ih _ _ (h1.trans hnone) hrest

theorem maxByLastSeen_nil : maxByLastSeen [] = none := rfl

/- ## Concrete fixtures -/

/-- An RSA key with kid k1. -/
def jwkK1 : Jwk :=
  { kid := "k1", kty := "RSA", n := "n1", e := "AQAB",
    alg := some "RS256", use_ := some "sig" }

/-- An RSA key with kid k2. -/
def jwkK2 : Jwk :=
  { kid := "k2", kty := "RSA", n := "n2", e := "AQAB", alg := none, use_ := none }

/-- A registered tenant t1. -/
def tenant1 : Tenant :=
  { id := ⟨"t1"⟩, uri := "https://jwks.example/t1",
    issuer := "https://issuer.example/t1/v2.0", audience := "api" }

/-- A verifier with tenant t1 registered, ttl 5, cooldown 60. -/
def cfg1 : Verifier :=
  { registry := [(⟨"t1"⟩, tenant1)], ttl := 5, refresh_tenant_jwks_interval := 60 }

/-- State: t1 has an empty key cache and a fresh refresh state. -/
def stEmpty : VState :=
  { entries := [(⟨"t1"⟩, [])],
    refresh_states := [(⟨"t1"⟩, refreshStateDefault)],
    fetchCount := 0, notifyCount := 0 }

/-- Key map holding k1 last seen at time 3. -/
def mapK1 : CachedJwkMap := [(⟨"k1"⟩, { jwk := jwkK1, last_seen_at := 3 })]

/-- State: t1 caches k1 (seen at 3). -/
def stK1 : VState :=
  { entries := [(⟨"t1"⟩, mapK1)],
    refresh_states := [(⟨"t1"⟩, refreshStateDefault)],
    fetchCount := 0, notifyCount := 0 }

/-- A verifier like `cfg1` but with ttl 1 (every key of `stAged` expired). -/
def cfgTtl1 : Verifier :=
  { registry := [(⟨"t1"⟩, tenant1)], ttl := 1, refresh_tenant_jwks_interval := 60 }

/-- State: t1 caches only k1, last seen at 0 (aged 10 at time 10). -/
def stAged : VState :=
  { entries := [(⟨"t1"⟩, [(⟨"k1"⟩, { jwk := jwkK1, last_seen_at := 0 })])],
    refresh_states := [(⟨"t1"⟩, refreshStateDefault)],
    fetchCount := 0, notifyCount := 0 }

/-- Token whose payload carries both `tid = "zz"` and an `iss` whose first
path segment is `common`; header is valid RS256 with a kid. -/
def tokCommonWithTid : RawToken :=
  { headerResult := .ok { alg := .RS256, kid := some "k1" }, numParts := 3,
    payloadB64Result := .ok (),
    payloadParseResult :=
      .ok { iss := "https://login.microsoftonline.com/common/v2.0", tid := some "zz" } }

/-- Token like `tokCommonWithTid` but without a `tid`. -/
def tokCommonNoTid : RawToken :=
  { headerResult := .ok { alg := .RS256, kid := some "k1" }, numParts := 3,
    payloadB64Result := .ok (),
    payloadParseResult :=
      .ok { iss := "https://login.microsoftonline.com/common/v2.0", tid := none } }

/-- Token whose header decodes to HS256 with no kid. -/
def tokNoKidHs256 : RawToken :=
  { headerResult := .ok { alg := .HS256, kid := none }, numParts := 3,
    payloadB64Result := .ok (),
    payloadParseResult :=
      .ok { iss := "https://login.microsoftonline.com/t1/v2.0", tid := none } }

/-- Token with a valid header whose `iss` is `https://host/` (path `/`,
first segment the empty string) and no `tid`. -/
def tokEmptyPathIss : RawToken :=
  { headerResult := .ok { alg := .RS256, kid := some "k1" }, numParts := 3,
    payloadB64Result := .ok (),
    payloadParseResult := .ok { iss := "https://host/", tid := none } }

/- ## Claim theorems -/

/-- C3: the claim says cleanup retains exactly the fresh keys except that an
all-expired non-empty tenant keeps its most recent key, so a non-empty
tenant stays non-empty.  The code violates this: `original.drain()` has
already emptied the map that the safety branch then scans with
`max_by_key`, so `cleanup_tenant` always equals the plain filter (first
conjunct) and a tenant all of whose keys expired is left with no keys at
all (second and third conjuncts: ttl 1, now 10, one key last seen at 0),
contradicting the claim, the spec's invariant 3 and the function's own doc
comment. -/
theorem C3_cleanup_discards_expired_last_key :
    (∀ ttl now (m : CachedJwkMap),
       cleanup_tenant ttl now m =
         m.filter (fun kv => decide (now - kv.2.last_seen_at < ttl))) ∧
    cleanup_tenant 1 10 [(⟨"k1"⟩, { jwk := jwkK1, last_seen_at := 0 })] = [] ∧
    (cleanup_expired_jwks_cache cfgTtl1 stAged 10).entries = [(⟨"t1"⟩, [])] := by
  refine ⟨?_, by decide, by decide⟩
  intro ttl now m
  simp [cleanup_tenant, maxByLastSeen_nil]

/-- C7: for a registered tenant with a cache entry, the merge of
`refresh_tenant_jwks_cache` succeeds, replaces the tenant's map by
`mergeKeys`, and `mergeKeys` updates `last_seen_at` to now for every kid
already present (keeping the stored key material), inserts every absent
fetched kid with `last_seen_at = now`, and removes no existing key. -/
theorem C7_merge_updates_inserts_never_removes
    (v : Verifier) (st : VState) (keys : List Jwk) (now : Nat) (tid : TenantId)
    (tenant : Tenant) (m : CachedJwkMap)
    (hreg : alookup v.registry tid = some tenant)
    (hm : alookup st.entries tid = some m) :
    (refresh_tenant_jwks_cache v st (.ok keys) now tid).1 = .ok () ∧
    alookup (refresh_tenant_jwks_cache v st (.ok keys) now tid).2.entries tid =
      some (mergeKeys m keys now) ∧
    (∀ kid v0, alookup m kid = some v0 → kid ∈ kidsOf keys →
       alookup (mergeKeys m keys now) kid = some { v0 with last_seen_at := now }) ∧
    (∀ kid v0, alookup m kid = some v0 → kid ∉ kidsOf keys →
       alookup (mergeKeys m keys now) kid = some v0) ∧
    (∀ key, key ∈ keys → alookup m ⟨key.kid⟩ = none →
       ∃ v1, alookup (mergeKeys m keys now) ⟨key.kid⟩ = some v1 ∧
         v1.last_seen_at = now) ∧
    (∀ kid, (alookup m kid).isSome → (alookup (mergeKeys m keys now) kid).isSome) := by
  refine ⟨?_, ?_, ?_, ?_, ?_, ?_⟩
  · simp [refresh_tenant_jwks_cache, hreg, hm]
  · simp [refresh_tenant_jwks_cache, hreg, hm, alookup_aset]
  · intro kid v0 hv hmem
    exact mergeKeys_lookup_mem keys now m kid v0 hv hmem
  · intro kid v0 hv hmem
    exact (mergeKeys_lookup_not_mem keys now m kid hmem).trans hv
  · intro key hkey hnone
    exact mergeKeys_inserts keys now m ⟨key.kid⟩ hnone (List.mem_map_of_mem _ hkey)
  · intro kid h
    by_cases hmem : kid ∈ kidsOf keys
    · rcases Option.isSome_iff_exists.mp h with ⟨v0, hv⟩
      rw [mergeKeys_lookup_mem keys now m kid v0 hv hmem]
      rfl
    · rw [mergeKeys_lookup_not_mem keys now m kid hmem]
      exact h

/-- C7 witness: merging the fetch `[k1, k2]` at time 9 into t1's cache
(which holds k1 seen at 3) succeeds and stores the merged map. -/
theorem C7_witness :
    (refresh_tenant_jwks_cache cfg1 stK1 (.ok [jwkK1, jwkK2]) 9 ⟨"t1"⟩).1 = .ok () ∧
    alookup (refresh_tenant_jwks_cache cfg1 stK1 (.ok [jwkK1, jwkK2]) 9
        ⟨"t1"⟩).2.entries ⟨"t1"⟩ = some (mergeKeys mapK1 [jwkK1, jwkK2] 9) := by
  have h := C7_merge_updates_inserts_never_removes cfg1 stK1 [jwkK1, jwkK2] 9
    ⟨"t1"⟩ tenant1 mapK1 (by decide) (by decide)
  exact ⟨h.1, h.2.1⟩

/-- C8: the claim says a further attempt is made iff the error is retryable
(timeout, connect failure, 5xx or 429) and attempts so far are below
`max_attempts`.  The status half is real: 429, 500, 503, 200 completes in
exactly 4 attempts and a single 400 aborts after 1 attempt (first two
conjuncts).  But the `?` on `send()` returns a `JwksFetchError` before
`is_retryable_error` is ever consulted, so a timeout — retryable by the
code's own classifier (third conjunct) — aborts after 1 attempt even with
`max_attempts = 3` and a 200 available next (fourth conjunct). -/
theorem initCaches_domain (fetchFor : String → Except EntraIdError (List Jwk))
    (now : Nat) :
    ∀ (reg : TenantRegistry) entries states,
      initCaches fetchFor now reg = .ok (entries, states) →
      ∀ tid, (alookup reg tid).isSome → (alookup entries tid).isSome := by
  intro reg
  induction reg with
  | nil =>
    intro entries states _ tid h
    simp [alookup] at h
  | cons hd rest ih =>
    obtain ⟨tid0, tenant0⟩ := hd
    intro entries states h tid hin
    unfold initCaches at h
    cases hf : fetchFor tenant0.uri with
    | error e => rw [hf] at h; exact absurd h (by simp)
    | ok keys =>
      rw [hf] at h
      cases hrest : initCaches fetchFor now rest with
      | error e => rw [hrest] at h; exact absurd h (by simp)
      | ok pair =>
        obtain ⟨entries0, states0⟩ := pair
        rw [hrest] at h
        simp only [Except.ok.injEq, Prod.mk.injEq] at h
        obtain ⟨he, _⟩ := h
        subst he
        by_cases htid : tid0 = tid
        · simp [alookup, htid]
        · simp only [alookup, if_neg htid] at hin ⊢
          exact ih entries0 states0 hrest tid hin

/-- C4: every tenant of the registry has a cache-table entry right after
construction, and the cache-table key set is untouched by both the merge of
`refresh_tenant_jwks_cache` (which only rewrites the value of an existing
tenant) and by `cleanup_expired_jwks_cache` (which maps over the values in
place). -/
theorem C4_registry_tenants_always_cached :
    (∀ (tenants : List Tenant) (ttl interval : Nat)
       (fetchFor : String → Except EntraIdError (List Jwk)) (now : Nat)
       (v : Verifier) (st : VState),
       newVerifier tenants ttl interval fetchFor now = .ok (v, st) →
       ∀ tid, (alookup v.registry tid).isSome → (alookup st.entries tid).isSome) ∧
    (∀ (v : Verifier) (st : VState) (fetchResult : Except EntraIdError (List Jwk))
       (now : Nat) (tid tid' : TenantId),
       (alookup ((refresh_tenant_jwks_cache v st fetchResult now tid).2.entries)
           tid').isSome =
         (alookup st.entries tid').isSome) ∧
    (∀ (v : Verifier) (st : VState) (now : Nat) (tid' : TenantId),
       (alookup ((cleanup_expired_jwks_cache v st now).entries) tid').isSome =
         (alookup st.entries tid').isSome) := by
  refine ⟨?_, ?_, ?_⟩
  · intro tenants ttl interval fetchFor now v st h tid hin
    simp only [newVerifier] at h
    cases hc : initCaches fetchFor now (buildRegistry tenants) with
    | error e => rw [hc] at h; exact absurd h (by simp)
    | ok pair =>
      obtain ⟨entries, states⟩ := pair
      rw [hc] at h
      simp only [Except.ok.injEq, Prod.mk.injEq] at h
      obtain ⟨hv, hst⟩ := h
      subst hv; subst hst
      exact initCaches_domain fetchFor now (buildRegistry tenants) entries states hc
        tid hin
  · intro v st fetchResult now tid tid'
    cases hreg : alookup v.registry tid with
    | none => simp [refresh_tenant_jwks_cache, hreg]
    | some tenant =>
      cases fetchResult with
      | error e => simp [refresh_tenant_jwks_cache, hreg]
      | ok keys =>
        cases hm : alookup st.entries tid with
        | none => simp [refresh_tenant_jwks_cache, hreg, hm]
        | some m =>
          simp only [refresh_tenant_jwks_cache, hreg, hm]
          rw [alookup_aset]
          by_cases h : tid = tid'
          · subst h; simp [hm]
          · simp [h]
  · intro v st now tid'
    unfold cleanup_expired_jwks_cache
    rw [alookup_mapValues st.entries (cleanup_tenant v.ttl now) tid']
    cases alookup st.entries tid' <;> rfl

/-- The state a successful `newVerifier [tenant1] …` run with a one-key
fetch produces. -/
def stNew : VState :=
  { entries := [(⟨"t1"⟩, [(⟨"k1"⟩, { jwk := jwkK1, last_seen_at := 0 })])],
    refresh_states := [(⟨"t1"⟩, refreshStateDefault)],
    fetchCount := 1, notifyCount := 0 }

/-- C4 witness: the construction invariant at the concrete run above, and
the two preservation equations at concrete states. -/
theorem C4_witness :
    (alookup stNew.entries ⟨"t1"⟩).isSome ∧
    (alookup ((refresh_tenant_jwks_cache cfg1 stK1 (.ok [jwkK2]) 9
        ⟨"t1"⟩).2.entries) ⟨"t1"⟩).isSome = (alookup stK1.entries ⟨"t1"⟩).isSome ∧
    (alookup ((cleanup_expired_jwks_cache cfgTtl1 stAged 10).entries)
        ⟨"t1"⟩).isSome = (alookup stAged.entries ⟨"t1"⟩).isSome := by
  refine ⟨?_, ?_, ?_⟩
  · exact C4_registry_tenants_always_cached.1 [tenant1] 5 60 (fun _ => .ok [jwkK1]) 0
      cfg1 stNew (by decide) ⟨"t1"⟩ (by decide)
  · exact C4_registry_tenants_always_cached.2.1 cfg1 stK1 (.ok [jwkK2]) 9 ⟨"t1"⟩ ⟨"t1"⟩
  · exact C4_registry_tenants_always_cached.2.2 cfgTtl1 stAged 10 ⟨"t1"⟩

/-- C5: when the tenant's `last_refreshed_at` is set and within the
cooldown, `maybe_refresh_tenant_jwks_cache` returns `RecentlyRefreshed` as
a success and leaves the entire state — key caches, refresh state and fetch
counter — untouched: no JWKS call is made. -/
theorem C5_recently_refreshed_is_noop
    (v : Verifier) (st : VState) (fetchResult : Except EntraIdError (List Jwk))
    (now nowMerge nowDone : Nat) (tid : TenantId)
    (state : JwksCacheRefreshState) (t : Nat)
    (hstate : alookup st.refresh_states tid = some state)
    (hlast : state.last_refreshed_at = some t)
    (hcool : now - t < v.refresh_tenant_jwks_interval) :
    maybe_refresh_tenant_jwks_cache v st fetchResult now nowMerge nowDone tid =
      (.ok .RecentlyRefreshed, st) := by
  have hca : cooldownActive state now v.refresh_tenant_jwks_interval = true := by
    simp [cooldownActive, hlast, hcool]
  simp [maybe_refresh_tenant_jwks_cache, hstate, hca]

/-- A state whose tenant t1 was last refreshed at time 100. -/
def stCooldown : VState :=
  { entries := [(⟨"t1"⟩, mapK1)],
    refresh_states := [(⟨"t1"⟩, { last_refreshed_at := some 100, refreshing := false })],
    fetchCount := 0, notifyCount := 0 }

/-- C5 witness: at time 110 with a 60-unit cooldown, the call returns
`RecentlyRefreshed` and the state is exactly the input state. -/
theorem C5_witness :
    maybe_refresh_tenant_jwks_cache cfg1 stCooldown (.ok [jwkK1]) 110 110 110 ⟨"t1"⟩ =
      (.ok .RecentlyRefreshed, stCooldown) :=
  C5_recently_refreshed_is_noop cfg1 stCooldown (.ok [jwkK1]) 110 110 110 ⟨"t1"⟩
    { last_refreshed_at := some 100, refreshing := false } 100
    (by decide) rfl (by decide)

theorem cooldownActive_mono (state : JwksCacheRefreshState) (now now' i : Nat)
    (h : cooldownActive state now i = false) (hle : now ≤ now') :
    cooldownActive state now' i = false := by
  unfold cooldownActive at h ⊢
  cases hl : state.last_refreshed_at with
  | none => rfl
  | some t =>
    rw [hl] at h
    simp only [decide_eq_false_iff_not] at h ⊢
    omega

theorem maybe_refresh_not_recently (v : Verifier) (st : VState)
    (fr : Except EntraIdError (List Jwk)) (now nm nd : Nat) (tid : TenantId)
    (s : JwksCacheRefreshState)
    (hstate : alookup st.refresh_states tid = some s)
    (hcool : cooldownActive s now v.refresh_tenant_jwks_interval = false) :
    (maybe_refresh_tenant_jwks_cache v st fr now nm nd tid).1 ≠
      .ok .RecentlyRefreshed := by
  simp only [maybe_refresh_tenant_jwks_cache, hstate, Option.getD_some, hcool,
    Bool.false_eq_true, if_false]
  cases hr : s.refreshing with
  | true => simp
  | false =>
    simp only [Bool.false_eq_true, if_false]
    cases hs : (refresh_tenant_jwks_cache v
        { st with
            refresh_states :=
              aset st.refresh_states tid { s with refreshing := true } }
        fr nm tid).1 <;> simp [hs, Except.map]

/-- With the refresh role granted (no cooldown, not refreshing) and the
fetch failing, one `maybe_refresh_tenant_jwks_cache` call equals: propagate
the error, one fetch attempted, no cache change, flag set then cleared,
`last_refreshed_at` untouched, waiters notified. -/
theorem maybe_refresh_fetch_error_eq (v : Verifier) (st : VState)
    (e : EntraIdError) (now nowMerge nowDone : Nat) (tid : TenantId)
    (tenant : Tenant) (state : JwksCacheRefreshState)
    (hreg : alookup v.registry tid = some tenant)
    (hstate : alookup st.refresh_states tid = some state)
    (hcool : cooldownActive state now v.refresh_tenant_jwks_interval = false)
    (hflag : state.refreshing = false) :
    maybe_refresh_tenant_jwks_cache v st (.error e) now nowMerge nowDone tid =
      (.error e,
       { entries := st.entries,
         refresh_states :=
           aset (aset st.refresh_states tid { state with refreshing := true })
             tid { state with refreshing := false },
         fetchCount := st.fetchCount + 1,
         notifyCount := st.notifyCount + 1 }) := by
  simp only [maybe_refresh_tenant_jwks_cache, hstate, Option.getD_some, hcool,
    Bool.false_eq_true, if_false, hflag, refresh_tenant_jwks_cache, hreg,
    alookup_aset, if_pos rfl, Except.map]
  simp

/-- C6: when the caller that holds the refresh role fails its fetch, the
call clears the `refreshing` flag, notifies the waiters, leaves
`last_refreshed_at` (and the key cache) unchanged, and a subsequent call
for the same tenant at any time `now' ≥ now` is not answered with
`RecentlyRefreshed` by the cooldown check. -/
theorem C6_failed_refresh_keeps_cooldown_open (v : Verifier) (st : VState)
    (e : EntraIdError) (now nowMerge nowDone : Nat) (tid : TenantId)
    (tenant : Tenant) (state : JwksCacheRefreshState)
    (hreg : alookup v.registry tid = some tenant)
    (hstate : alookup st.refresh_states tid = some state)
    (hcool : cooldownActive state now v.refresh_tenant_jwks_interval = false)
    (hflag : state.refreshing = false) :
    (maybe_refresh_tenant_jwks_cache v st (.error e) now nowMerge nowDone tid).1 =
      .error e ∧
    (maybe_refresh_tenant_jwks_cache v st (.error e) now nowMerge nowDone
        tid).2.entries = st.entries ∧
    (maybe_refresh_tenant_jwks_cache v st (.error e) now nowMerge nowDone
        tid).2.notifyCount = st.notifyCount + 1 ∧
    alookup (maybe_refresh_tenant_jwks_cache v st (.error e) now nowMerge nowDone
        tid).2.refresh_states tid = some { state with refreshing := false } ∧
    (∀ (fr' : Except EntraIdError (List Jwk)) (now' nm' nd' : Nat), now ≤ now' →
       (maybe_refresh_tenant_jwks_cache v
           (maybe_refresh_tenant_jwks_cache v st (.error e) now nowMerge nowDone
             tid).2 fr' now' nm' nd' tid).1 ≠ .ok .RecentlyRefreshed) := by
  rw [maybe_refresh_fetch_error_eq v st e now nowMerge nowDone tid tenant state
    hreg hstate hcool hflag]
  refine ⟨rfl, rfl, rfl, ?_, ?_⟩
  · rw [alookup_aset, if_pos rfl]
  · intro fr' now' nm' nd' hle
    apply maybe_refresh_not_recently
    · rw [alookup_aset, if_pos rfl]
    · have h2 : cooldownActive { state with refreshing := false } now
          v.refresh_tenant_jwks_interval = false := hcool
      exact cooldownActive_mono _ now now' _ h2 hle

/-- C6 witness: at the concrete non-cooled state `stEmpty`, a failed fetch
propagates the error, notifies once, keeps the cache, clears the flag, and
a call one instant later is not suppressed. -/
theorem C6_witness :
    (maybe_refresh_tenant_jwks_cache cfg1 stEmpty
        (.error (.JwksFetchError "https://jwks.example/t1")) 0 0 0 ⟨"t1"⟩).1 =
      .error (.JwksFetchError "https://jwks.example/t1") ∧
    (maybe_refresh_tenant_jwks_cache cfg1 stEmpty
        (.error (.JwksFetchError "https://jwks.example/t1")) 0 0 0
        ⟨"t1"⟩).2.entries = stEmpty.entries ∧
    (maybe_refresh_tenant_jwks_cache cfg1 stEmpty
        (.error (.JwksFetchError "https://jwks.example/t1")) 0 0 0
        ⟨"t1"⟩).2.notifyCount = stEmpty.notifyCount + 1 ∧
    alookup (maybe_refresh_tenant_jwks_cache cfg1 stEmpty
        (.error (.JwksFetchError "https://jwks.example/t1")) 0 0 0
        ⟨"t1"⟩).2.refresh_states ⟨"t1"⟩ =
      some { refreshStateDefault with refreshing := false } ∧
    (maybe_refresh_tenant_jwks_cache cfg1
        (maybe_refresh_tenant_jwks_cache cfg1 stEmpty
          (.error (.JwksFetchError "https://jwks.example/t1")) 0 0 0 ⟨"t1"⟩).2
        (.ok [jwkK1]) 1 1 1 ⟨"t1"⟩).1 ≠ .ok .RecentlyRefreshed := by
  have h := C6_failed_refresh_keeps_cooldown_open cfg1 stEmpty
    (.JwksFetchError "https://jwks.example/t1") 0 0 0 ⟨"t1"⟩ tenant1
    refreshStateDefault (by decide) (by decide) (by decide) rfl
  exact ⟨h.1, h.2.1, h.2.2.1, h.2.2.2.1,
    h.2.2.2.2 (.ok [jwkK1]) 1 1 1 (by decide)⟩

theorem C8_transport_errors_never_retried :
    fetch_jwks 4
        [.response 429 (.error ()), .response 500 (.error ()),
         .response 503 (.error ()), .response 200 (.ok [jwkK1])] =
      .success [jwkK1] 4 ∧
    fetch_jwks 4 [.response 400 (.error ())] = .fetchError (statusError 400) 1 ∧
    is_retryable_error (transportErrorOf true false) = true ∧
    fetch_jwks 3 [.transportError true false, .response 200 (.ok [jwkK1])] =
      .fetchError (transportErrorOf true false) 1 := by
  exact ⟨by decide, by decide, by decide, by decide⟩

/-- C1 counterexample: `tokCommonWithTid` has an `iss` whose first path
segment is `common` (first conjunct, via the code's own extractor), yet
because its payload carries `tid = "zz"` the verifier classifies the issuer
from the tid, never inspects the iss path, and fails with
`TenantNotFound "zz"` — not `DisallowedIssuerTenant` (fourth conjunct) —
after zero fetches. -/
theorem C1_counterexample_tid_overrides_common_iss :
    extract_issuer_from_iss "https://login.microsoftonline.com/common/v2.0" =
      .error (.DisallowedIssuerTenant .Common) ∧
    (verify_token cfg1 (fun _ => true) stEmpty (.ok []) 0 0 0
        tokCommonWithTid).1 = .error (.TenantNotFound ⟨"zz"⟩) ∧
    (verify_token cfg1 (fun _ => true) stEmpty (.ok []) 0 0 0
        tokCommonWithTid).2.fetchCount = 0 ∧
    decide ((verify_token cfg1 (fun _ => true) stEmpty (.ok []) 0 0 0
        tokCommonWithTid).1 = .error (.DisallowedIssuerTenant .Common)) = false := by
  exact ⟨by decide, by decide, by decide, by decide⟩

/-- C1 (amended): for every token that passes the header checks and the
payload decode and carries NO `tid`, if the first path segment of its `iss`
URL is `common` or `organizations` then `verify_token` fails with
`DisallowedIssuerTenant` (`Common` or `Organizations` respectively) and the
state — in particular the fetch counter — is untouched: no network I/O. -/
theorem C1_no_tid_disallowed_issuer_no_fetch (v : Verifier)
    (rsaValid : Jwk → Bool) (st : VState)
    (fetchResult : Except EntraIdError (List Jwk)) (now nowMerge nowDone : Nat)
    (token : RawToken) (header : JwtHeader) (kid : String)
    (uc : UnverifiedClaims) (u : ModelUrl) (seg : String) (rest : List String)
    (hh : token.headerResult = .ok header)
    (halg : header.alg = .RS256)
    (hkid : header.kid = some kid)
    (hp : extract_payload token = .ok uc)
    (htid : uc.tid = none)
    (hurl : urlParse uc.iss = some u)
    (hsegs : u.path_segments = some (seg :: rest))
    (hseg : seg = "common" ∨ seg = "organizations") :
    verify_token v rsaValid st fetchResult now nowMerge nowDone token =
      (.error (.DisallowedIssuerTenant
        (if seg = "common" then .Common else .Organizations)), st) := by
  rcases hseg with h | h <;> subst h <;>
    simp [verify_token, verify_token_tail, hh, halg, hkid, hp, specify_issuer,
      htid, extract_issuer_from_iss, hurl, hsegs, Except.map]

/-- C1 witness: the concrete tid-less token with a `common` iss is rejected
with `DisallowedIssuerTenant Common` and the state is returned unchanged. -/
theorem C1_witness :
    verify_token cfg1 (fun _ => true) stEmpty (.ok []) 0 0 0 tokCommonNoTid =
      (.error (.DisallowedIssuerTenant .Common), stEmpty) := by
  have h := C1_no_tid_disallowed_issuer_no_fetch cfg1 (fun _ => true) stEmpty
    (.ok []) 0 0 0 tokCommonNoTid { alg := .RS256, kid := some "k1" } "k1"
    { iss := "https://login.microsoftonline.com/common/v2.0", tid := none }
    { scheme := "https", path := "/common/v2.0" } "common" ["v2.0"]
    rfl rfl rfl (by decide) rfl (by decide) (by decide) (Or.inl rfl)
  simpa using h

/-- C2 counterexample: `tokNoKidHs256`'s header decodes with `alg = HS256 ≠
RS256`, yet the `src/entra-id-backend` variant of `verify_token` fails with
`TokenHeaderMissingKid` — not `UnsupportedTokenAlgorithm` — because its
missing-kid check runs before the algorithm check. -/
theorem C2_counterexample_missing_kid_shadows_alg :
    tokNoKidHs256.headerResult = .ok { alg := .HS256, kid := none } ∧
    (verify_token_eib cfg1 (fun _ => true) stEmpty (.ok []) 0 0 0
        tokNoKidHs256).1 = .error (.TokenHeaderMissingKid "JWT header missing kid") ∧
    decide ((verify_token_eib cfg1 (fun _ => true) stEmpty (.ok []) 0 0 0
        tokNoKidHs256).1 =
      .error (.UnsupportedTokenAlgorithm .HS256)) = false := by
  exact ⟨rfl, by decide, by decide⟩

/-- C2 (amended): in `src/backend`, every token whose header decodes with
`alg ≠ RS256` is rejected with `UnsupportedTokenAlgorithm` and the state —
in particular the fetch counter — is untouched.  In `src/entra-id-backend`
the same holds provided the header also carries a kid (the missing-kid check
runs first there). -/
theorem C2_unsupported_algorithm_no_fetch (v : Verifier)
    (rsaValid : Jwk → Bool) (st : VState)
    (fetchResult : Except EntraIdError (List Jwk)) (now nowMerge nowDone : Nat) :
    (∀ (token : RawToken) (header : JwtHeader),
       token.headerResult = .ok header → header.alg ≠ .RS256 →
       verify_token v rsaValid st fetchResult now nowMerge nowDone token =
         (.error (.UnsupportedTokenAlgorithm header.alg), st)) ∧
    (∀ (token : RawToken) (header : JwtHeader) (kid : String),
       token.headerResult = .ok header → header.kid = some kid →
       header.alg ≠ .RS256 →
       verify_token_eib v rsaValid st fetchResult now nowMerge nowDone token =
         (.error (.UnsupportedTokenAlgorithm header.alg), st)) := by
  constructor
  · intro token header hh halg
    simp [verify_token, hh, halg]
  · intro token header kid hh hkid halg
    simp [verify_token_eib, hh, hkid, halg]

/-- C2 witness: a concrete HS256 token (with a kid, so that both variants
apply) is rejected by both verifiers with `UnsupportedTokenAlgorithm` and no
state change. -/
theorem C2_witness :
    verify_token cfg1 (fun _ => true) stEmpty (.ok []) 0 0 0
        { headerResult := .ok { alg := .HS256, kid := some "k1" }, numParts := 3,
          payloadB64Result := .ok (),
          payloadParseResult := .ok { iss := "https://host/t1", tid := none } } =
      (.error (.UnsupportedTokenAlgorithm .HS256), stEmpty) ∧
    verify_token_eib cfg1 (fun _ => true) stEmpty (.ok []) 0 0 0
        { headerResult := .ok { alg := .HS256, kid := some "k1" }, numParts := 3,
          payloadB64Result := .ok (),
          payloadParseResult := .ok { iss := "https://host/t1", tid := none } } =
      (.error (.UnsupportedTokenAlgorithm .HS256), stEmpty) := by
  have h := C2_unsupported_algorithm_no_fetch cfg1 (fun _ => true) stEmpty
    (.ok []) 0 0 0
  exact ⟨h.1 _ { alg := .HS256, kid := some "k1" } rfl (by decide),
    h.2 _ { alg := .HS256, kid := some "k1" } "k1" rfl rfl (by decide)⟩

/-- C9 counterexample: `tokNoKidHs256`'s header decodes with no kid, yet the
`src/backend` variant of `verify_token` fails with
`UnsupportedTokenAlgorithm HS256` — not `HeaderMissingKid` — because it
checks the algorithm before the kid. -/
theorem C9_counterexample_alg_checked_first :
    tokNoKidHs256.headerResult = .ok { alg := .HS256, kid := none } ∧
    (verify_token cfg1 (fun _ => true) stEmpty (.ok []) 0 0 0
        tokNoKidHs256).1 = .error (.UnsupportedTokenAlgorithm .HS256) ∧
    decide ((verify_token cfg1 (fun _ => true) stEmpty (.ok []) 0 0 0
        tokNoKidHs256).1 =
      .error (.TokenHeaderMissingKid "JWT header missing kid")) = false := by
  exact ⟨rfl, by decide, by decide⟩

/-- C9 (amended): in `src/entra-id-backend`, every token whose header
decodes without a kid is rejected with the missing-kid error irrespective of
`alg`.  In `src/backend` the algorithm check runs first, so the missing-kid
error is produced only when `alg = RS256`. -/
theorem C9_missing_kid_rejected (v : Verifier) (rsaValid : Jwk → Bool)
    (st : VState) (fetchResult : Except EntraIdError (List Jwk))
    (now nowMerge nowDone : Nat) :
    (∀ (token : RawToken) (header : JwtHeader),
       token.headerResult = .ok header → header.kid = none →
       verify_token_eib v rsaValid st fetchResult now nowMerge nowDone token =
         (.error (.TokenHeaderMissingKid "JWT header missing kid"), st)) ∧
    (∀ (token : RawToken) (header : JwtHeader),
       token.headerResult = .ok header → header.kid = none →
       header.alg = .RS256 →
       verify_token v rsaValid st fetchResult now nowMerge nowDone token =
         (.error (.TokenHeaderMissingKid "JWT header missing kid"), st)) := by
  constructor
  · intro token header hh hkid
    simp [verify_token_eib, hh, hkid]
  · intro token header hh hkid halg
    simp [verify_token, hh, hkid, halg]

/-- C9 witness: a concrete RS256 token without a kid is rejected by both
variants with `TokenHeaderMissingKid` and no state change. -/
theorem C9_witness :
    verify_token_eib cfg1 (fun _ => true) stEmpty (.ok []) 0 0 0
        { headerResult := .ok { alg := .RS256, kid := none }, numParts := 3,
          payloadB64Result := .ok (),
          payloadParseResult := .ok { iss := "https://host/t1", tid := none } } =
      (.error (.TokenHeaderMissingKid "JWT header missing kid"), stEmpty) ∧
    verify_token cfg1 (fun _ => true) stEmpty (.ok []) 0 0 0
        { headerResult := .ok { alg := .RS256, kid := none }, numParts := 3,
          payloadB64Result := .ok (),
          payloadParseResult := .ok { iss := "https://host/t1", tid := none } } =
      (.error (.TokenHeaderMissingKid "JWT header missing kid"), stEmpty) := by
  have h := C9_missing_kid_rejected cfg1 (fun _ => true) stEmpty (.ok []) 0 0 0
  exact ⟨h.1 _ { alg := .RS256, kid := none } rfl rfl,
    h.2 _ { alg := .RS256, kid := none } rfl rfl rfl⟩

/-- C10: whenever `Url::parse` succeeds the `InvalidIssuerFormat "Empty path
in iss"` branch of `extract_issuer_from_iss` is unreachable (a split always
yields at least one segment); an `iss` with an empty or `/` path parses to
the empty-string tenant id, and verification then proceeds to tenant lookup
with that empty id (here: `TenantNotFound ""` in a registry without it). -/
theorem C10_empty_path_branch_unreachable :
    (∀ (iss : String) (u : ModelUrl), urlParse iss = some u →
       extract_issuer_from_iss iss ≠
         .error (.InvalidIssuerFormat "Empty path in iss")) ∧
    extract_issuer_from_iss "https://host/" = .ok ⟨""⟩ ∧
    extract_issuer_from_iss "https://host" = .ok ⟨""⟩ ∧
    (verify_token cfg1 (fun _ => true) stEmpty (.ok []) 0 0 0
        tokEmptyPathIss).1 = .error (.TenantNotFound ⟨""⟩) := by
  refine ⟨?_, by decide, by decide, by decide⟩
  intro iss u hu
  have hred : extract_issuer_from_iss iss =
      match u.path_segments with
      | none => .error (.InvalidIssuerFormat "No path segments in iss")
      | some segments =>
        match segments with
        | [] => .error (.InvalidIssuerFormat "Empty path in iss")
        | first :: _ =>
          if first = "common" then .error (.DisallowedIssuerTenant .Common)
          else if first = "organizations" then
            .error (.DisallowedIssuerTenant .Organizations)
          else .ok ⟨first⟩ := by
    unfold extract_issuer_from_iss
    rw [hu]
  rw [hred]
  cases hs : u.path_segments with
  | none => decide
  | some segments =>
    have hne := path_segments_ne_nil u segments hs
    cases segments with
    | nil => exact absurd rfl hne
    | cons first rest =>
      by_cases h1 : first = "common"
      · simp [h1]
      · by_cases h2 : first = "organizations" <;> simp [h1, h2]

/-- C10 witness: the universally-quantified part applied at the concrete
URL `https://host/`. -/
theorem C10_witness :
    extract_issuer_from_iss "https://host/" ≠
      .error (.InvalidIssuerFormat "Empty path in iss") :=
  C10_empty_path_branch_unreachable.1 "https://host/"
    { scheme := "https", path := "/" } (by decide)

end EntraId
